import Mathlib

/-!
Shallow embedding of `db_manager_app.py`: a relational e-commerce store
(customers, sellers, catalog items, orders, order line-items, deliveries)
with a schema/seed initializer, generic read and insert operations, and an
insert-or-accumulate upsert for the delivery relation.

The SQLite store is modelled as an explicit `Store` value threaded through
each operation; rows are kept in insertion order, matching SQLite's
store-native scan order for these append-only tables.
-/

/-- Dynamic value as stored or transported: integer, text, or NULL. -/
inductive Val where
  | int : Int → Val
  | str : String → Val
  | null : Val
deriving DecidableEq, Repr

/-- A JSON payload / row image: ordered mapping from field name to value
(Python dict with unique keys, insertion ordered). -/
abbrev Payload := List (String × Val)

/-- Row of table customer (id INTEGER PRIMARY KEY, name TEXT NOT NULL). -/
structure CustomerRow where
  id : Int
  name : String
deriving DecidableEq, Repr

/-- Row of table seller (id INTEGER PRIMARY KEY, nation TEXT NOT NULL). -/
structure SellerRow where
  id : Int
  nation : String
deriving DecidableEq, Repr

/-- Row of table catalog (id INTEGER PRIMARY KEY, name TEXT NOT NULL, color TEXT NOT NULL). -/
structure CatalogRow where
  id : Int
  name : String
  color : String
deriving DecidableEq, Repr

/-- Row of table "order" (id INTEGER PRIMARY KEY, customer_id INTEGER NOT NULL,
date TEXT NOT NULL, item_id INTEGER nullable). -/
structure OrderRow where
  id : Int
  customer_id : Int
  date : String
  item_id : Option Int
deriving DecidableEq, Repr

/-- Row of table order_item (order_id, catalog_id, quantity INTEGER NOT NULL,
PRIMARY KEY (order_id, catalog_id)). -/
structure OrderItemRow where
  order_id : Int
  catalog_id : Int
  quantity : Int
deriving DecidableEq, Repr

/-- Row of table delivery (seller_id, catalog_id, quantity INTEGER NOT NULL,
PRIMARY KEY (seller_id, catalog_id)). -/
structure DeliveryRow where
  seller_id : Int
  catalog_id : Int
  quantity : Int
deriving DecidableEq, Repr

/-- The relational store: the six tables of the fixed schema, plus a flag
recording whether the "order" table has the additive item_id column
(legacy databases may lack it until `init_db` adds it). -/
structure Store where
  customer : List CustomerRow
  seller : List SellerRow
  catalog : List CatalogRow
  order : List OrderRow
  order_item : List OrderItemRow
  delivery : List DeliveryRow
  orderHasItemId : Bool
deriving DecidableEq, Repr

/-- A store with no rows anywhere and a legacy "order" table (no item_id yet). -/
def emptyStore : Store :=
  { customer := [], seller := [], catalog := [], order := [],
    order_item := [], delivery := [], orderHasItemId := false }

/-- The six table identifiers of the closed schema. -/
inductive Table where
  | customer
  | seller
  | catalog
  | order
  | order_item
  | delivery
deriving DecidableEq, Repr

/-- Seed rows for customer inserted by `init_db` when the table is empty. -/
def seedCustomers : List CustomerRow :=
  [⟨1, "Alice"⟩, ⟨2, "Bob"⟩, ⟨3, "Carol"⟩]

/-- Seed rows for seller. -/
def seedSellers : List SellerRow :=
  [⟨1, "Italy"⟩, ⟨2, "France"⟩]

/-- Seed rows for catalog. -/
def seedCatalog : List CatalogRow :=
  [⟨1, "T-Shirt", "red"⟩, ⟨2, "T-Shirt", "blue"⟩, ⟨3, "Shoes", "black"⟩]

/-- Seed rows for "order". -/
def seedOrders : List OrderRow :=
  [⟨1, 1, "2026-02-01", some 1⟩, ⟨2, 2, "2026-02-02", some 2⟩]

/-- Seed rows for order_item. -/
def seedOrderItems : List OrderItemRow :=
  [⟨1, 1, 2⟩, ⟨1, 3, 1⟩, ⟨2, 2, 1⟩]

/-- Seed rows for delivery. -/
def seedDeliveries : List DeliveryRow :=
  [⟨1, 1, 100⟩, ⟨1, 2, 50⟩, ⟨2, 3, 70⟩]

/-- Schema/seed initializer `init_db`: ensures the six tables exist (the
`Store` type already carries all six), adds the item_id column to "order"
when it is missing (ALTER TABLE, never touching existing rows), then seeds
each table independently when and only when that table currently holds zero
rows. -/
def init_db (st : Store) : Store :=
  let st1 := if st.orderHasItemId then st else { st with orderHasItemId := true }
  { st1 with
    customer := if st1.customer.isEmpty then seedCustomers else st1.customer,
    seller := if st1.seller.isEmpty then seedSellers else st1.seller,
    catalog := if st1.catalog.isEmpty then seedCatalog else st1.catalog,
    order := if st1.order.isEmpty then seedOrders else st1.order,
    order_item := if st1.order_item.isEmpty then seedOrderItems else st1.order_item,
    delivery := if st1.delivery.isEmpty then seedDeliveries else st1.delivery }

/-- Dictionary image of a customer row, column order as in the schema. -/
def customerToDict (r : CustomerRow) : Payload :=
  [("id", Val.int r.id), ("name", Val.str r.name)]

/-- Dictionary image of a seller row. -/
def sellerToDict (r : SellerRow) : Payload :=
  [("id", Val.int r.id), ("nation", Val.str r.nation)]

/-- Dictionary image of a catalog row. -/
def catalogToDict (r : CatalogRow) : Payload :=
  [("id", Val.int r.id), ("name", Val.str r.name), ("color", Val.str r.color)]

/-- Option Int to stored value (NULL when absent). -/
def optIntVal : Option Int → Val
  | some n => Val.int n
  | none => Val.null

/-- Dictionary image of an "order" row; the item_id column only appears when
the table has it (SELECT * returns the columns that exist). -/
def orderToDict (hasItemId : Bool) (r : OrderRow) : Payload :=
  [("id", Val.int r.id), ("customer_id", Val.int r.customer_id),
    ("date", Val.str r.date)]
  ++ (if hasItemId then [("item_id", optIntVal r.item_id)] else [])

/-- Dictionary image of an order_item row. -/
def orderItemToDict (r : OrderItemRow) : Payload :=
  [("order_id", Val.int r.order_id), ("catalog_id", Val.int r.catalog_id),
    ("quantity", Val.int r.quantity)]

/-- Dictionary image of a delivery row. -/
def deliveryToDict (r : DeliveryRow) : Payload :=
  [("seller_id", Val.int r.seller_id), ("catalog_id", Val.int r.catalog_id),
    ("quantity", Val.int r.quantity)]

/-- The `get_all` read: SELECT STAR FROM table, every row as a dict, in
store-native (insertion) order. -/
def get_all (t : Table) (st : Store) : List Payload :=
  match t with
  | .customer => st.customer.map customerToDict
  | .seller => st.seller.map sellerToDict
  | .catalog => st.catalog.map catalogToDict
  | .order => st.order.map (orderToDict st.orderHasItemId)
  | .order_item => st.order_item.map orderItemToDict
  | .delivery => st.delivery.map deliveryToDict

/-- Tables that have an id primary-key column, the ones `get_by_id` is
invoked on by the routing layer. -/
inductive IdTable where
  | customer
  | seller
  | catalog
  | order
deriving DecidableEq, Repr

/-- The `get_by_id` read: SELECT STAR FROM table WHERE id = ?, first (unique)
matching row as a dict, or None when no row matches. -/
def get_by_id (t : IdTable) (idv : Int) (st : Store) : Option Payload :=
  match t with
  | .customer => (st.customer.find? (fun r => r.id == idv)).map customerToDict
  | .seller => (st.seller.find? (fun r => r.id == idv)).map sellerToDict
  | .catalog => (st.catalog.find? (fun r => r.id == idv)).map catalogToDict
  | .order => (st.order.find? (fun r => r.id == idv)).map (orderToDict st.orderHasItemId)

/-- The ids present in an id-keyed table. -/
def tableIds (t : IdTable) (st : Store) : List Int :=
  match t with
  | .customer => st.customer.map (fun r => r.id)
  | .seller => st.seller.map (fun r => r.id)
  | .catalog => st.catalog.map (fun r => r.id)
  | .order => st.order.map (fun r => r.id)

/-- The `get_column_values` read: SELECT column FROM table, the single column
across all rows in store-native row order; an invalid column name is an
error surfaced from the store. -/
def get_column_values (t : IdTable) (c : String) (st : Store) : Except String (List Val) :=
  match t, c with
  | .customer, "id" => .ok (st.customer.map (fun r => Val.int r.id))
  | .customer, "name" => .ok (st.customer.map (fun r => Val.str r.name))
  | .seller, "id" => .ok (st.seller.map (fun r => Val.int r.id))
  | .seller, "nation" => .ok (st.seller.map (fun r => Val.str r.nation))
  | .catalog, "id" => .ok (st.catalog.map (fun r => Val.int r.id))
  | .catalog, "name" => .ok (st.catalog.map (fun r => Val.str r.name))
  | .catalog, "color" => .ok (st.catalog.map (fun r => Val.str r.color))
  | .order, "id" => .ok (st.order.map (fun r => Val.int r.id))
  | .order, "customer_id" => .ok (st.order.map (fun r => Val.int r.customer_id))
  | .order, "date" => .ok (st.order.map (fun r => Val.str r.date))
  | .order, "item_id" =>
      if st.orderHasItemId then .ok (st.order.map (fun r => optIntVal r.item_id))
      else .error ("no such column: " ++ c)
  | _, _ => .error ("no such column: " ++ c)

/-- Modelled from the spec: the storage engine (out of scope, assumed to
provide constraints, section 7) yields a ConstraintViolation when a NULL
reaches a NOT NULL column and on a type mismatch; numeric text is accepted
for an INTEGER-affinity column. Converts a payload value for storage into a
NOT NULL INTEGER column. -/
def valAsStoredInt (col : String) (v : Val) : Except String Int :=
  match v with
  | .null => .error ("NOT NULL constraint failed: " ++ col)
  | .int n => .ok n
  | .str s =>
      match s.toInt? with
      | some n => .ok n
      | none => .error "datatype mismatch"

/-- Modelled from the spec: conversion into a NOT NULL TEXT column; numbers
are stored as their text image, NULL is a ConstraintViolation. -/
def valAsStoredText (col : String) (v : Val) : Except String String :=
  match v with
  | .null => .error ("NOT NULL constraint failed: " ++ col)
  | .int n => .ok (toString n)
  | .str s => .ok s

/-- Modelled from the spec: conversion into a nullable INTEGER column. -/
def valAsNullableInt (v : Val) : Except String (Option Int) :=
  match v with
  | .null => .ok none
  | .int n => .ok (some n)
  | .str s =>
      match s.toInt? with
      | some n => .ok (some n)
      | none => .error "datatype mismatch"

/-- Modelled from the spec: assignment of an INTEGER PRIMARY KEY (rowid
alias): NULL or an absent field auto-assigns one more than the largest id in
use, an explicit id must be an integer and not collide (uniqueness
constraint). -/
def rowIdFor (col : String) (v : Val) (existing : List Int) : Except String Int :=
  match v with
  | .null => .ok ((existing.foldl max 0) + 1)
  | .int n =>
      if existing.contains n then .error ("UNIQUE constraint failed: " ++ col)
      else .ok n
  | .str s =>
      match s.toInt? with
      | some n =>
          if existing.contains n then .error ("UNIQUE constraint failed: " ++ col)
          else .ok n
      | none => .error "datatype mismatch"

/-- Value bound for a column: the payload's value, NULL when the column is
absent from the INSERT column list. -/
def colVal (p : Payload) (k : String) : Val :=
  (p.lookup k).getD Val.null

/-- First payload key that is not a column of the table, if any (the store
rejects the whole INSERT naming it). -/
def badKey (p : Payload) (cols : List String) : Option String :=
  (p.find? (fun kv => !(cols.contains kv.1))).map (fun kv => kv.1)

/-- Does a delivery row match the key pair, as the WHERE clause
seller_id = ? AND catalog_id = ? does. -/
def deliveryMatches (s c : Int) (r : DeliveryRow) : Bool :=
  r.seller_id == s && r.catalog_id == c

/-- Does an order_item row match the key pair (order_id, catalog_id). -/
def orderItemMatches (o c : Int) (r : OrderItemRow) : Bool :=
  r.order_id == o && r.catalog_id == c

/-- Checked single-row INSERT into customer. -/
def insertCustomer (p : Payload) (tbl : List CustomerRow) : Except String (List CustomerRow) :=
  match badKey p ["id", "name"] with
  | some k => .error ("table customer has no column named " ++ k)
  | none => do
      let nm ← valAsStoredText "customer.name" (colVal p "name")
      let idv ← rowIdFor "customer.id" (colVal p "id") (tbl.map (fun r => r.id))
      .ok (tbl ++ [⟨idv, nm⟩])

/-- Checked single-row INSERT into seller. -/
def insertSeller (p : Payload) (tbl : List SellerRow) : Except String (List SellerRow) :=
  match badKey p ["id", "nation"] with
  | some k => .error ("table seller has no column named " ++ k)
  | none => do
      let nt ← valAsStoredText "seller.nation" (colVal p "nation")
      let idv ← rowIdFor "seller.id" (colVal p "id") (tbl.map (fun r => r.id))
      .ok (tbl ++ [⟨idv, nt⟩])

/-- Checked single-row INSERT into catalog. -/
def insertCatalog (p : Payload) (tbl : List CatalogRow) : Except String (List CatalogRow) :=
  match badKey p ["id", "name", "color"] with
  | some k => .error ("table catalog has no column named " ++ k)
  | none => do
      let nm ← valAsStoredText "catalog.name" (colVal p "name")
      let cl ← valAsStoredText "catalog.color" (colVal p "color")
      let idv ← rowIdFor "catalog.id" (colVal p "id") (tbl.map (fun r => r.id))
      .ok (tbl ++ [⟨idv, nm, cl⟩])

/-- Checked single-row INSERT into "order". -/
def insertOrder (p : Payload) (tbl : List OrderRow) : Except String (List OrderRow) :=
  match badKey p ["id", "customer_id", "date", "item_id"] with
  | some k => .error ("table order has no column named " ++ k)
  | none => do
      let cid ← valAsStoredInt "order.customer_id" (colVal p "customer_id")
      let dt ← valAsStoredText "order.date" (colVal p "date")
      let itm ← valAsNullableInt (colVal p "item_id")
      let idv ← rowIdFor "order.id" (colVal p "id") (tbl.map (fun r => r.id))
      .ok (tbl ++ [⟨idv, cid, dt, itm⟩])

/-- Checked single-row INSERT into order_item: the composite primary key
(order_id, catalog_id) must not collide. -/
def insertOrderItem (p : Payload) (tbl : List OrderItemRow) : Except String (List OrderItemRow) :=
  match badKey p ["order_id", "catalog_id", "quantity"] with
  | some k => .error ("table order_item has no column named " ++ k)
  | none =>
      match valAsStoredInt "order_item.order_id" (colVal p "order_id") with
      | .error e => .error e
      | .ok o =>
          match valAsStoredInt "order_item.catalog_id" (colVal p "catalog_id") with
          | .error e => .error e
          | .ok c =>
              match valAsStoredInt "order_item.quantity" (colVal p "quantity") with
              | .error e => .error e
              | .ok q =>
                  if tbl.any (orderItemMatches o c) then
                    .error "UNIQUE constraint failed: order_item.order_id, order_item.catalog_id"
                  else
                    .ok (tbl ++ [⟨o, c, q⟩])

/-- Checked single-row INSERT into delivery: the composite primary key
(seller_id, catalog_id) must not collide. -/
def insertDelivery (p : Payload) (tbl : List DeliveryRow) : Except String (List DeliveryRow) :=
  match badKey p ["seller_id", "catalog_id", "quantity"] with
  | some k => .error ("table delivery has no column named " ++ k)
  | none =>
      match valAsStoredInt "delivery.seller_id" (colVal p "seller_id") with
      | .error e => .error e
      | .ok s =>
          match valAsStoredInt "delivery.catalog_id" (colVal p "catalog_id") with
          | .error e => .error e
          | .ok c =>
              match valAsStoredInt "delivery.quantity" (colVal p "quantity") with
              | .error e => .error e
              | .ok q =>
                  if tbl.any (deliveryMatches s c) then
                    .error "UNIQUE constraint failed: delivery.seller_id, delivery.catalog_id"
                  else
                    .ok (tbl ++ [⟨s, c, q⟩])

/-- What the store does with the single parameterized INSERT built by
`insert_row`: accept and append the one new row, or reject with a
diagnostic message. -/
def checkedInsert (t : Table) (p : Payload) (st : Store) : Except String Store :=
  match t with
  | .customer => (insertCustomer p st.customer).map (fun tb => { st with customer := tb })
  | .seller => (insertSeller p st.seller).map (fun tb => { st with seller := tb })
  | .catalog => (insertCatalog p st.catalog).map (fun tb => { st with catalog := tb })
  | .order => (insertOrder p st.order).map (fun tb => { st with order := tb })
  | .order_item => (insertOrderItem p st.order_item).map (fun tb => { st with order_item := tb })
  | .delivery => (insertDelivery p st.delivery).map (fun tb => { st with delivery := tb })

/-- The generic `insert_row`: empty payload is rejected before touching the
store; otherwise one INSERT runs, committed on success, rolled back (store
unchanged) with the store's message on any store error. Result is (new
store, success flag, message). -/
def insert_row (t : Table) (p : Payload) (st : Store) : Store × Bool × String :=
  if p.isEmpty then (st, false, "Empty payload")
  else
    match checkedInsert t p st with
    | .error e => (st, false, e)
    | .ok st1 => (st1, true, "inserted")

/-- Modelled from the spec: value of a payload value compared against an
INTEGER-affinity column in a WHERE clause; NULL and non-numeric text match
no integer. -/
def asInt (v : Val) : Option Int :=
  match v with
  | .int n => some n
  | .str s => s.toInt?
  | .null => none

/-- WHERE seller_id = ? AND catalog_id = ? with the payload's raw values. -/
def valMatches (sv cv : Val) (r : DeliveryRow) : Bool :=
  match asInt sv, asInt cv with
  | some s, some c => deliveryMatches s c r
  | _, _ => false

/-- Modelled from the spec: SQLite addition quantity + ? coerces text to a
number (0 when non-numeric) and yields NULL (a ConstraintViolation on the
NOT NULL quantity column) when the parameter is NULL. -/
def numCoerce (v : Val) : Option Int :=
  match v with
  | .int n => some n
  | .str s => some (s.toInt?.getD 0)
  | .null => none

/-- The pure insert-or-accumulate step of `insert_or_add_delivery` on the
delivery table, for integer key pair and quantity: SELECT the row for the
key pair; when found, UPDATE quantity to quantity + q on every matching row;
when not found, INSERT the new row. -/
def upsertDelivery (tbl : List DeliveryRow) (s c q : Int) : List DeliveryRow :=
  match tbl.find? (deliveryMatches s c) with
  | some _ =>
      tbl.map (fun r =>
        if deliveryMatches s c r then { r with quantity := r.quantity + q } else r)
  | none => tbl ++ [⟨s, c, q⟩]

/-- The `insert_or_add_delivery` operation: requires seller_id, catalog_id
and quantity present in the payload (rejected before touching the store
otherwise); then SELECT the existing row for the key pair, UPDATE
accumulating the quantity when found, INSERT the new row when not; any store
error rolls back leaving the store unchanged and reports the store's
message. -/
def insert_or_add_delivery (p : Payload) (st : Store) : Store × Bool × String :=
  if (p.lookup "seller_id").isSome && (p.lookup "catalog_id").isSome
      && (p.lookup "quantity").isSome then
    let sv := colVal p "seller_id"
    let cv := colVal p "catalog_id"
    let qv := colVal p "quantity"
    match st.delivery.find? (valMatches sv cv) with
    | some _ =>
        match numCoerce qv with
        | none => (st, false, "NOT NULL constraint failed: delivery.quantity")
        | some d =>
            ({ st with delivery := st.delivery.map (fun r =>
                if valMatches sv cv r then { r with quantity := r.quantity + d } else r) },
              true, "inserted")
    | none =>
        match valAsStoredInt "delivery.seller_id" sv,
            valAsStoredInt "delivery.catalog_id" cv,
            valAsStoredInt "delivery.quantity" qv with
        | .ok s, .ok c, .ok q =>
            ({ st with delivery := st.delivery ++ [⟨s, c, q⟩] }, true, "inserted")
        | .error e, _, _ => (st, false, e)
        | .ok _, .error e, _ => (st, false, e)
        | .ok _, .ok _, .error e => (st, false, e)
  else (st, false, "seller_id, catalog_id and quantity are required")

/-- Payload carrying exactly the three delivery fields as integers. -/
def mkDeliveryPayload (s c q : Int) : Payload :=
  [("seller_id", Val.int s), ("catalog_id", Val.int c), ("quantity", Val.int q)]

/-- Number of delivery rows matching a key pair. -/
def countMatching (tbl : List DeliveryRow) (s c : Int) : Nat :=
  tbl.countP (deliveryMatches s c)

/-- Total quantity over the delivery rows matching a key pair. -/
def sumMatching (tbl : List DeliveryRow) (s c : Int) : Int :=
  ((tbl.filter (deliveryMatches s c)).map (fun r => r.quantity)).sum

/-- Number of order_item rows matching a key pair. -/
def oiCountMatching (tbl : List OrderItemRow) (o c : Int) : Nat :=
  tbl.countP (orderItemMatches o c)

/-- The composite-key invariant: at most one delivery row per
(seller_id, catalog_id) and at most one order_item row per
(order_id, catalog_id). -/
def StoreKeysUnique (st : Store) : Prop :=
  (∀ s c : Int, countMatching st.delivery s c ≤ 1) ∧
  (∀ o c : Int, oiCountMatching st.order_item o c ≤ 1)

/-- A store in which every table holds at least one row (as after seeding). -/
def Seeded (st : Store) : Prop :=
  st.customer ≠ [] ∧ st.seller ≠ [] ∧ st.catalog ≠ [] ∧
  st.order ≠ [] ∧ st.order_item ≠ [] ∧ st.delivery ≠ []

/-- Row count of one table. -/
def rowCount (t : Table) (st : Store) : Nat :=
  match t with
  | .customer => st.customer.length
  | .seller => st.seller.length
  | .catalog => st.catalog.length
  | .order => st.order.length
  | .order_item => st.order_item.length
  | .delivery => st.delivery.length

/-- Store states reachable through the core's operations starting from an
empty store: seed initialization, generic inserts, and delivery upserts. -/
inductive Reachable : Store → Prop where
  | empty : Reachable emptyStore
  | initStep {st : Store} : Reachable st → Reachable (init_db st)
  | insertStep {st : Store} (t : Table) (p : Payload) :
      Reachable st → Reachable (insert_row t p st).1
  | upsertStep {st : Store} (p : Payload) :
      Reachable st → Reachable (insert_or_add_delivery p st).1

/-- C4: after a first initialization of an empty store, list_all("customer")
returns exactly Alice, Bob, Carol with ids 1, 2, 3 in that order, and
list_all("delivery") returns exactly the rows (1,1,100), (1,2,50), (2,3,70)
in that order. -/
theorem seed_literal_scenario :
    get_all Table.customer (init_db emptyStore) =
      [[("id", Val.int 1), ("name", Val.str "Alice")],
        [("id", Val.int 2), ("name", Val.str "Bob")],
        [("id", Val.int 3), ("name", Val.str "Carol")]] ∧
    get_all Table.delivery (init_db emptyStore) =
      [[("seller_id", Val.int 1), ("catalog_id", Val.int 1), ("quantity", Val.int 100)],
        [("seller_id", Val.int 1), ("catalog_id", Val.int 2), ("quantity", Val.int 50)],
        [("seller_id", Val.int 2), ("catalog_id", Val.int 3), ("quantity", Val.int 70)]] :=
  ⟨rfl, rfl⟩

/-- C7: get_by_id on an id with no matching row returns an explicit
not-found result (None), never an error. -/
theorem get_by_id_returns_none_on_miss (t : IdTable) (idv : Int) (st : Store)
    (h : idv ∉ tableIds t st) : get_by_id t idv st = none := by
  cases t <;> simp_all [get_by_id, tableIds, List.find?_eq_none, List.mem_map]

/-- Witness: get_by_id("customer", 9999) on the freshly seeded store is a
not-found result. -/
theorem get_by_id_returns_none_on_miss_example :
    get_by_id IdTable.customer 9999 (init_db emptyStore) = none :=
  get_by_id_returns_none_on_miss IdTable.customer 9999 (init_db emptyStore) (by decide)

/-- C8: get_column("catalog", "name") returns the name values in exactly the
row order of list_all("catalog"): the projection of get_all's rows onto the
name column is get_column_values' result. -/
theorem get_column_matches_get_all_order (st : Store) :
    get_column_values IdTable.catalog "name" st =
      .ok ((get_all Table.catalog st).map (fun r => (r.lookup "name").getD Val.null)) := by
  simp [get_column_values, get_all, catalogToDict, List.map_map, Function.comp, List.lookup]

/-- C5: an insert with an empty payload fails with the explicit
"Empty payload" condition leaving the store untouched, and a delivery upsert
with any of the three required fields absent fails with the explicit
missing-required-fields condition leaving the store untouched. -/
theorem insert_validation_rejects_without_touching :
    (∀ (t : Table) (st : Store), insert_row t [] st = (st, false, "Empty payload")) ∧
    (∀ (p : Payload) (st : Store),
      p.lookup "seller_id" = none ∨ p.lookup "catalog_id" = none ∨
        p.lookup "quantity" = none →
      insert_or_add_delivery p st =
        (st, false, "seller_id, catalog_id and quantity are required")) := by
  constructor
  · intro t st; rfl
  · intro p st h
    unfold insert_or_add_delivery
    rcases h with h | h | h <;> simp [h]

/-- Witness: the empty-payload insert and a one-field upsert both fail with
the stated messages on the empty store, which is returned unchanged. -/
theorem insert_validation_rejects_without_touching_example :
    insert_row Table.customer [] emptyStore = (emptyStore, false, "Empty payload") ∧
    insert_or_add_delivery [("seller_id", Val.int 1)] emptyStore =
      (emptyStore, false, "seller_id, catalog_id and quantity are required") :=
  ⟨insert_validation_rejects_without_touching.1 Table.customer emptyStore,
    insert_validation_rejects_without_touching.2 [("seller_id", Val.int 1)] emptyStore
      (Or.inr (Or.inl rfl))⟩

/-- C6: when the store rejects the single INSERT built by insert_row
(uniqueness conflict, NOT NULL violation, type mismatch, unknown column),
the operation rolls back atomically: the store is returned unchanged and
the failure result carries the store's diagnostic message. -/
theorem insert_row_rolls_back_on_store_error (t : Table) (p : Payload) (st : Store)
    (e : String) (hp : p ≠ []) (h : checkedInsert t p st = .error e) :
    insert_row t p st = (st, false, e) := by
  have hne : p.isEmpty = false := by
    cases p with
    | nil => exact absurd rfl hp
    | cons a l => rfl
  simp [insert_row, hne, h]

/-- Witness: inserting a duplicate customer id into the seeded store fails
with the uniqueness diagnostic and leaves the store unchanged. -/
theorem insert_row_rolls_back_on_store_error_example :
    insert_row Table.customer [("id", Val.int 1), ("name", Val.str "Zoe")]
        (init_db emptyStore)
      = (init_db emptyStore, false, "UNIQUE constraint failed: customer.id") :=
  insert_row_rolls_back_on_store_error Table.customer
    [("id", Val.int 1), ("name", Val.str "Zoe")] (init_db emptyStore)
    "UNIQUE constraint failed: customer.id" (List.cons_ne_nil _ _) rfl

/-- Normal form of the initializer: item_id present, each table seeded
exactly when it was empty. -/
theorem init_db_eq (st : Store) :
    init_db st =
      { customer := if st.customer.isEmpty then seedCustomers else st.customer,
        seller := if st.seller.isEmpty then seedSellers else st.seller,
        catalog := if st.catalog.isEmpty then seedCatalog else st.catalog,
        order := if st.order.isEmpty then seedOrders else st.order,
        order_item := if st.order_item.isEmpty then seedOrderItems else st.order_item,
        delivery := if st.delivery.isEmpty then seedDeliveries else st.delivery,
        orderHasItemId := true } := by
  cases st with
  | mk a b c d e f g => cases g <;> rfl

/-- A nonempty list is not isEmpty. -/
theorem isEmpty_false_of_ne {α : Type} (l : List α) (h : l ≠ []) :
    l.isEmpty = false := by
  cases l with
  | nil => exact absurd rfl h
  | cons a t => rfl

/-- Seeding-if-empty always yields a nonempty table when the seed itself is
nonempty. -/
theorem ifSeed_isEmpty {α : Type} (l seedl : List α) (hs : seedl.isEmpty = false) :
    (if l.isEmpty then seedl else l).isEmpty = false := by
  cases h : l.isEmpty <;> simp [h, hs]

/-- C3: the initializer is idempotent: on an already-seeded store a run
changes no table's row count; running it twice is running it once; the
item_id column is added (only when missing) and the "order" rows are never
destroyed. -/
theorem init_db_idempotent :
    (∀ st : Store, Seeded st → ∀ t : Table, rowCount t (init_db st) = rowCount t st) ∧
    (∀ st : Store, init_db (init_db st) = init_db st) ∧
    (∀ st : Store, st.order ≠ [] → (init_db st).order = st.order) ∧
    (∀ st : Store, (init_db st).orderHasItemId = true) := by
  refine ⟨?_, ?_, ?_, ?_⟩
  · intro st h t
    obtain ⟨h1, h2, h3, h4, h5, h6⟩ := h
    rw [init_db_eq]
    cases t <;>
      simp [rowCount, isEmpty_false_of_ne _ h1, isEmpty_false_of_ne _ h2,
        isEmpty_false_of_ne _ h3, isEmpty_false_of_ne _ h4,
        isEmpty_false_of_ne _ h5, isEmpty_false_of_ne _ h6]
  · intro st
    rw [init_db_eq st, init_db_eq]
    simp only [ifSeed_isEmpty st.customer seedCustomers rfl,
      ifSeed_isEmpty st.seller seedSellers rfl,
      ifSeed_isEmpty st.catalog seedCatalog rfl,
      ifSeed_isEmpty st.order seedOrders rfl,
      ifSeed_isEmpty st.order_item seedOrderItems rfl,
      ifSeed_isEmpty st.delivery seedDeliveries rfl]
    simp
  · intro st h
    rw [init_db_eq]
    simp [isEmpty_false_of_ne _ h]
  · intro st
    rw [init_db_eq]

/-- Witness: on the already-seeded store produced by a first initialization,
a second run keeps every customer row count, and is in fact the identity on
the whole seeded store. -/
theorem init_db_idempotent_example :
    rowCount Table.customer (init_db (init_db emptyStore))
        = rowCount Table.customer (init_db emptyStore) ∧
    init_db (init_db emptyStore) = init_db emptyStore :=
  ⟨init_db_idempotent.1 (init_db emptyStore)
      ⟨by decide, by decide, by decide, by decide, by decide, by decide⟩ Table.customer,
    init_db_idempotent.2.1 emptyStore⟩

/-- Appending one row adds to the matching count exactly when the row
matches. -/
theorem countMatching_append (tbl : List DeliveryRow) (row : DeliveryRow) (s c : Int) :
    countMatching (tbl ++ [row]) s c =
      countMatching tbl s c + (if deliveryMatches s c row then 1 else 0) := by
  simp [countMatching, List.countP_append, List.countP_cons]

/-- Appending one row adds its quantity to the matching sum exactly when the
row matches. -/
theorem sumMatching_append (tbl : List DeliveryRow) (row : DeliveryRow) (s c : Int) :
    sumMatching (tbl ++ [row]) s c =
      sumMatching tbl s c + (if deliveryMatches s c row then row.quantity else 0) := by
  by_cases h : deliveryMatches s c row <;>
    simp [sumMatching, List.filter_append, h]

/-- A key pair with no matching row contributes a zero matching sum. -/
theorem sumMatching_of_count_zero (tbl : List DeliveryRow) (s c : Int)
    (h : countMatching tbl s c = 0) : sumMatching tbl s c = 0 := by
  unfold sumMatching
  rw [List.filter_eq_nil_iff.mpr]
  · rfl
  · intro r hr
    have := List.countP_eq_zero.mp h r hr
    simpa using this

/-- On a table with no row for the key pair, the upsert takes the insert
path and appends the new row. -/
theorem upsertDelivery_fresh (tbl : List DeliveryRow) (s c q : Int)
    (h : countMatching tbl s c = 0) :
    upsertDelivery tbl s c q = tbl ++ [⟨s, c, q⟩] := by
  unfold upsertDelivery
  rw [List.find?_eq_none.mpr]
  intro r hr
  have := List.countP_eq_zero.mp h r hr
  simpa using this

/-- The accumulate path's UPDATE leaves every key pair's row count
unchanged: it only rewrites quantities. -/
theorem countMatching_map_update (tbl : List DeliveryRow) (s c : Int)
    (g : DeliveryRow → Bool) (f : DeliveryRow → Int) :
    countMatching (tbl.map (fun r => if g r then { r with quantity := f r } else r)) s c
      = countMatching tbl s c := by
  induction tbl with
  | nil => rfl
  | cons a t ih =>
    simp only [List.map_cons, countMatching, List.countP_cons] at *
    by_cases hg : g a = true <;> simp [hg, ih, deliveryMatches]

/-- The accumulate path's UPDATE adds the increment to the matching sum once
per matching row. -/
theorem sumMatching_map_update (tbl : List DeliveryRow) (s c q : Int) :
    sumMatching (tbl.map (fun r =>
        if deliveryMatches s c r then { r with quantity := r.quantity + q } else r)) s c
      = sumMatching tbl s c + (countMatching tbl s c : Int) * q := by
  induction tbl with
  | nil => simp [sumMatching, countMatching]
  | cons a t ih =>
    simp only [List.map_cons]
    by_cases h : deliveryMatches s c a = true
    · have hm : deliveryMatches s c { a with quantity := a.quantity + q } = true := h
      rw [if_pos h]
      simp only [sumMatching, countMatching, List.filter_cons_of_pos hm,
        List.filter_cons_of_pos h, List.countP_cons_of_pos _ _ h,
        List.map_cons, List.sum_cons]
      simp only [sumMatching, countMatching] at ih
      push_cast
      rw [ih]
      ring
    · rw [if_neg h]
      simp only [sumMatching, countMatching, List.filter_cons_of_neg h,
        List.countP_cons_of_neg _ _ h]
      simpa [sumMatching, countMatching] using ih

/-- On a table holding the key pair, the upsert takes the accumulate path:
the row count for the pair is preserved and its total quantity grows by q
per matching row. -/
theorem upsertDelivery_existing (tbl : List DeliveryRow) (s c q : Int)
    (h : 0 < countMatching tbl s c) :
    countMatching (upsertDelivery tbl s c q) s c = countMatching tbl s c ∧
    sumMatching (upsertDelivery tbl s c q) s c =
      sumMatching tbl s c + (countMatching tbl s c : Int) * q := by
  have hex : ∃ r ∈ tbl, deliveryMatches s c r = true := by
    rcases List.countP_pos_iff.mp (by simpa [countMatching] using h) with ⟨r, hr, hm⟩
    exact ⟨r, hr, hm⟩
  obtain ⟨r, hr, hm⟩ := hex
  have hf : (tbl.find? (deliveryMatches s c)).isSome := by
    rw [List.find?_isSome]
    exact ⟨r, hr, hm⟩
  unfold upsertDelivery
  cases hfind : tbl.find? (deliveryMatches s c) with
  | none => rw [hfind] at hf; simp at hf
  | some x =>
    exact ⟨countMatching_map_update tbl s c (deliveryMatches s c) (fun r => r.quantity + q),
      sumMatching_map_update tbl s c q⟩

/-- An all-integer delivery payload always succeeds and performs exactly the
pure insert-or-accumulate step on the delivery table. -/
theorem insert_or_add_delivery_int (s c q : Int) (st : Store) :
    insert_or_add_delivery (mkDeliveryPayload s c q) st
      = ({ st with delivery := upsertDelivery st.delivery s c q }, true, "inserted") := by
  have h1 : (mkDeliveryPayload s c q).lookup "seller_id" = some (Val.int s) := rfl
  have h2 : (mkDeliveryPayload s c q).lookup "catalog_id" = some (Val.int c) := rfl
  have h3 : (mkDeliveryPayload s c q).lookup "quantity" = some (Val.int q) := rfl
  have hpred : valMatches (Val.int s) (Val.int c) = deliveryMatches s c := rfl
  unfold insert_or_add_delivery colVal upsertDelivery
  rw [h1, h2, h3]
  simp only [Option.isSome_some, Bool.and_self, if_true, Option.getD_some]
  cases hf : st.delivery.find? (valMatches (Val.int s) (Val.int c)) with
  | none =>
      have hf2 : st.delivery.find? (deliveryMatches s c) = none := by
        rw [← hpred]; exact hf
      simp [hf, hf2, numCoerce, valAsStoredInt]
  | some x =>
      have hf2 : st.delivery.find? (deliveryMatches s c) = some x := by
        rw [← hpred]; exact hf
      simp [hf, hf2, numCoerce, hpred]

/-- Folding further successful integer upserts over a store that already
holds exactly one row for the key pair keeps exactly one row and adds every
submitted quantity. -/
theorem foldl_upsert_maintains (s c : Int) (qs : List Int) :
    ∀ (st : Store) (a : Int),
      countMatching st.delivery s c = 1 →
      sumMatching st.delivery s c = a →
      countMatching ((qs.foldl (fun acc q =>
          (insert_or_add_delivery (mkDeliveryPayload s c q) acc).1) st).delivery) s c = 1 ∧
      sumMatching ((qs.foldl (fun acc q =>
          (insert_or_add_delivery (mkDeliveryPayload s c q) acc).1) st).delivery) s c
        = a + qs.sum := by
  induction qs with
  | nil => intro st a h1 h2; simpa using ⟨h1, h2⟩
  | cons q rest ih =>
    intro st a h1 h2
    rw [List.foldl_cons]
    have hstep : (insert_or_add_delivery (mkDeliveryPayload s c q) st).1
        = { st with delivery := upsertDelivery st.delivery s c q } := by
      rw [insert_or_add_delivery_int]
    rw [hstep]
    have hpos : 0 < countMatching st.delivery s c := by omega
    obtain ⟨hc, hs⟩ := upsertDelivery_existing st.delivery s c q hpos
    rw [h1] at hc hs
    have := ih { st with delivery := upsertDelivery st.delivery s c q } (a + q)
      (by simpa using hc) (by rw [hs, h2]; push_cast; ring)
    simpa [add_assoc] using this

/-- C1: starting from a store with no delivery row for the key pair, any
nonempty sequence of upsert_delivery(s, c, qᵢ) calls leaves exactly one
delivery row for the pair, whose quantity is the sum of every submitted
quantity; negative quantities simply decrease the total. -/
theorem upsert_delivery_accumulates (st : Store) (s c : Int) (qs : List Int)
    (h0 : countMatching st.delivery s c = 0) (hne : qs ≠ []) :
    countMatching ((qs.foldl (fun acc q =>
        (insert_or_add_delivery (mkDeliveryPayload s c q) acc).1) st).delivery) s c = 1 ∧
    sumMatching ((qs.foldl (fun acc q =>
        (insert_or_add_delivery (mkDeliveryPayload s c q) acc).1) st).delivery) s c
      = qs.sum := by
  cases qs with
  | nil => exact absurd rfl hne
  | cons q rest =>
    rw [List.foldl_cons]
    have hstep : (insert_or_add_delivery (mkDeliveryPayload s c q) st).1
        = { st with delivery := upsertDelivery st.delivery s c q } := by
      rw [insert_or_add_delivery_int]
    rw [hstep]
    have hfresh := upsertDelivery_fresh st.delivery s c q h0
    have hrow : deliveryMatches s c (⟨s, c, q⟩ : DeliveryRow) = true := by
      simp [deliveryMatches]
    have hc : countMatching (upsertDelivery st.delivery s c q) s c = 1 := by
      rw [hfresh, countMatching_append, h0, if_pos hrow]
    have hsum : sumMatching (upsertDelivery st.delivery s c q) s c = q := by
      rw [hfresh, sumMatching_append, sumMatching_of_count_zero st.delivery s c h0,
        if_pos hrow]
      simp
    have := foldl_upsert_maintains s c rest
      { st with delivery := upsertDelivery st.delivery s c q } q
      (by simpa using hc) (by simpa using hsum)
    simpa using this

/-- Witness: upsert_delivery(1,1,100) then upsert_delivery(1,1,50) on the
empty delivery table yields exactly one (1,1) row whose quantity is 150. -/
theorem upsert_delivery_accumulates_example :
    countMatching (([100, 50] : List Int).foldl (fun acc q =>
        (insert_or_add_delivery (mkDeliveryPayload 1 1 q) acc).1) emptyStore).delivery 1 1 = 1 ∧
    sumMatching (([100, 50] : List Int).foldl (fun acc q =>
        (insert_or_add_delivery (mkDeliveryPayload 1 1 q) acc).1) emptyStore).delivery 1 1 = 150 :=
  upsert_delivery_accumulates emptyStore 1 1 [100, 50] (by decide) (by decide)

/-- Appending one order_item row adds to the matching count exactly when the
row matches. -/
theorem oiCountMatching_append (tbl : List OrderItemRow) (row : OrderItemRow) (o c : Int) :
    oiCountMatching (tbl ++ [row]) o c =
      oiCountMatching tbl o c + (if orderItemMatches o c row then 1 else 0) := by
  simp [oiCountMatching, List.countP_append, List.countP_cons]

/-- A failed any-scan means the key pair has no delivery row. -/
theorem countMatching_zero_of_any_false (tbl : List DeliveryRow) (s c : Int)
    (h : tbl.any (deliveryMatches s c) = false) : countMatching tbl s c = 0 := by
  rw [countMatching, List.countP_eq_zero]
  intro a ha
  exact (List.any_eq_false.mp h) a ha

/-- A failed any-scan means the key pair has no order_item row. -/
theorem oiCountMatching_zero_of_any_false (tbl : List OrderItemRow) (o c : Int)
    (h : tbl.any (orderItemMatches o c) = false) : oiCountMatching tbl o c = 0 := by
  rw [oiCountMatching, List.countP_eq_zero]
  intro a ha
  exact (List.any_eq_false.mp h) a ha

/-- Appending a delivery row for a fresh key pair keeps every pair's row
count at most one. -/
theorem countMatching_append_le (tbl : List DeliveryRow) (s0 c0 q : Int)
    (hu : ∀ s c : Int, countMatching tbl s c ≤ 1)
    (h0 : countMatching tbl s0 c0 = 0) :
    ∀ s c : Int, countMatching (tbl ++ [(⟨s0, c0, q⟩ : DeliveryRow)]) s c ≤ 1 := by
  intro s c
  rw [countMatching_append]
  by_cases hm : deliveryMatches s c (⟨s0, c0, q⟩ : DeliveryRow) = true
  · have hk : s0 = s ∧ c0 = c := by simpa [deliveryMatches] using hm
    obtain ⟨rfl, rfl⟩ := hk
    rw [h0, if_pos hm]
  · have := hu s c
    rw [if_neg hm]
    omega

/-- Appending an order_item row for a fresh key pair keeps every pair's row
count at most one. -/
theorem oiCountMatching_append_le (tbl : List OrderItemRow) (o0 c0 q : Int)
    (hu : ∀ o c : Int, oiCountMatching tbl o c ≤ 1)
    (h0 : oiCountMatching tbl o0 c0 = 0) :
    ∀ o c : Int, oiCountMatching (tbl ++ [(⟨o0, c0, q⟩ : OrderItemRow)]) o c ≤ 1 := by
  intro o c
  rw [oiCountMatching_append]
  by_cases hm : orderItemMatches o c (⟨o0, c0, q⟩ : OrderItemRow) = true
  · have hk : o0 = o ∧ c0 = c := by simpa [orderItemMatches] using hm
    obtain ⟨rfl, rfl⟩ := hk
    rw [h0, if_pos hm]
  · have := hu o c
    rw [if_neg hm]
    omega

/-- The seed delivery rows have pairwise distinct key pairs. -/
theorem seedDeliveries_unique : ∀ s c : Int, countMatching seedDeliveries s c ≤ 1 := by
  intro s c
  simp [seedDeliveries, countMatching, List.countP_cons, deliveryMatches]
  split_ifs <;> simp_all <;> omega

/-- The seed order_item rows have pairwise distinct key pairs. -/
theorem seedOrderItems_unique : ∀ o c : Int, oiCountMatching seedOrderItems o c ≤ 1 := by
  intro o c
  simp [seedOrderItems, oiCountMatching, List.countP_cons, orderItemMatches]
  split_ifs <;> simp_all <;> omega

/-- A successful stored-int conversion agrees with the WHERE-comparison
conversion. -/
theorem valAsStoredInt_ok_asInt (col : String) (v : Val) (n : Int)
    (h : valAsStoredInt col v = .ok n) : asInt v = some n := by
  cases v with
  | null => simp [valAsStoredInt] at h
  | int m =>
      simp [valAsStoredInt] at h
      simp [asInt, h]
  | str s =>
      simp only [valAsStoredInt] at h
      cases hti : s.toInt? with
      | none => rw [hti] at h; simp at h
      | some m =>
          rw [hti] at h
          simp at h
          simp [asInt, hti, h]

/-- When the upsert's SELECT finds nothing, the key pair about to be
inserted has no row. -/
theorem count_zero_of_find_none (tbl : List DeliveryRow) (sv cv : Val) (s0 c0 : Int)
    (hs : asInt sv = some s0) (hc : asInt cv = some c0)
    (h : tbl.find? (valMatches sv cv) = none) : countMatching tbl s0 c0 = 0 := by
  rw [countMatching, List.countP_eq_zero]
  intro a ha
  have := List.find?_eq_none.mp h a ha
  simpa [valMatches, hs, hc] using this

/-- Mapping of Except results: an ok result comes from an ok input. -/
theorem except_map_ok {α β : Type} (f : α → β) (x : Except String α) (y : β)
    (h : x.map f = .ok y) : ∃ a, x = .ok a ∧ y = f a := by
  cases x with
  | error e => simp [Except.map] at h
  | ok a =>
      simp [Except.map] at h
      exact ⟨a, rfl, h.symm⟩

/-- Inversion of a successful order_item insert: it appended one row whose
key pair was absent. -/
theorem insertOrderItem_ok (p : Payload) (tbl tb : List OrderItemRow)
    (h : insertOrderItem p tbl = .ok tb) :
    ∃ o c q : Int, tbl.any (orderItemMatches o c) = false ∧ tb = tbl ++ [⟨o, c, q⟩] := by
  unfold insertOrderItem at h
  cases hbk : badKey p ["order_id", "catalog_id", "quantity"] with
  | some k => rw [hbk] at h; simp at h
  | none =>
    rw [hbk] at h
    cases ho : valAsStoredInt "order_item.order_id" (colVal p "order_id") with
    | error e => rw [ho] at h; simp at h
    | ok o =>
      rw [ho] at h
      cases hc : valAsStoredInt "order_item.catalog_id" (colVal p "catalog_id") with
      | error e => rw [hc] at h; simp at h
      | ok c =>
        rw [hc] at h
        cases hq : valAsStoredInt "order_item.quantity" (colVal p "quantity") with
        | error e => rw [hq] at h; simp at h
        | ok q =>
          rw [hq] at h
          dsimp only at h
          by_cases ha : tbl.any (orderItemMatches o c) = true
          · rw [if_pos ha] at h; simp at h
          · rw [if_neg ha] at h
            simp at h
            exact ⟨o, c, q, by simpa using ha, h.symm⟩

/-- Inversion of a successful delivery insert: it appended one row whose key
pair was absent. -/
theorem insertDelivery_ok (p : Payload) (tbl tb : List DeliveryRow)
    (h : insertDelivery p tbl = .ok tb) :
    ∃ s c q : Int, tbl.any (deliveryMatches s c) = false ∧ tb = tbl ++ [⟨s, c, q⟩] := by
  unfold insertDelivery at h
  cases hbk : badKey p ["seller_id", "catalog_id", "quantity"] with
  | some k => rw [hbk] at h; simp at h
  | none =>
    rw [hbk] at h
    cases hs : valAsStoredInt "delivery.seller_id" (colVal p "seller_id") with
    | error e => rw [hs] at h; simp at h
    | ok s =>
      rw [hs] at h
      cases hc : valAsStoredInt "delivery.catalog_id" (colVal p "catalog_id") with
      | error e => rw [hc] at h; simp at h
      | ok c =>
        rw [hc] at h
        cases hq : valAsStoredInt "delivery.quantity" (colVal p "quantity") with
        | error e => rw [hq] at h; simp at h
        | ok q =>
          rw [hq] at h
          dsimp only at h
          by_cases ha : tbl.any (deliveryMatches s c) = true
          · rw [if_pos ha] at h; simp at h
          · rw [if_neg ha] at h
            simp at h
            exact ⟨s, c, q, by simpa using ha, h.symm⟩

/-- The initializer preserves composite-key uniqueness: seeds are only
written into empty tables and carry pairwise distinct key pairs. -/
theorem init_db_preserves_keys (st : Store) (h : StoreKeysUnique st) :
    StoreKeysUnique (init_db st) := by
  obtain ⟨hd, ho⟩ := h
  rw [init_db_eq]
  constructor
  · intro s c
    by_cases he : st.delivery.isEmpty <;>
      simp [he, seedDeliveries_unique s c, hd s c]
  · intro o c
    by_cases he : st.order_item.isEmpty <;>
      simp [he, seedOrderItems_unique o c, ho o c]

/-- The generic insert preserves composite-key uniqueness: writes into the
composite-key tables are guarded by the primary-key constraint, and writes
into the other tables do not touch them. -/
theorem insert_row_preserves_keys (t : Table) (p : Payload) (st : Store)
    (h : StoreKeysUnique st) : StoreKeysUnique (insert_row t p st).1 := by
  obtain ⟨hd, ho⟩ := h
  unfold insert_row
  by_cases hp : p.isEmpty = true
  · simp only [hp, if_true]
    exact ⟨hd, ho⟩
  · simp only [hp, if_false, Bool.false_eq_true]
    cases hci : checkedInsert t p st with
    | error e => exact ⟨hd, ho⟩
    | ok st1 =>
      cases t <;> unfold checkedInsert at hci
      ·
        obtain ⟨tb, htb, hy⟩ := except_map_ok _ _ _ hci
        subst hy
        exact ⟨hd, ho⟩
      ·
        obtain ⟨tb, htb, hy⟩ := except_map_ok _ _ _ hci
        subst hy
        exact ⟨hd, ho⟩
      ·
        obtain ⟨tb, htb, hy⟩ := except_map_ok _ _ _ hci
        subst hy
        exact ⟨hd, ho⟩
      ·
        obtain ⟨tb, htb, hy⟩ := except_map_ok _ _ _ hci
        subst hy
        exact ⟨hd, ho⟩
      ·
        obtain ⟨tb, htb, hy⟩ := except_map_ok _ _ _ hci
        subst hy
        obtain ⟨o0, c0, q0, hany, htb2⟩ := insertOrderItem_ok _ _ _ htb
        subst htb2
        exact ⟨hd, oiCountMatching_append_le st.order_item o0 c0 q0 ho
          (oiCountMatching_zero_of_any_false _ _ _ hany)⟩
      ·
        obtain ⟨tb, htb, hy⟩ := except_map_ok _ _ _ hci
        subst hy
        obtain ⟨s0, c0, q0, hany, htb2⟩ := insertDelivery_ok _ _ _ htb
        subst htb2
        exact ⟨countMatching_append_le st.delivery s0 c0 q0 hd
          (countMatching_zero_of_any_false _ _ _ hany), ho⟩

/-- The delivery upsert preserves composite-key uniqueness: the accumulate
path only rewrites quantities, the insert path fires only for a pair the
SELECT found absent. -/
theorem upsert_preserves_keys (p : Payload) (st : Store) (h : StoreKeysUnique st) :
    StoreKeysUnique (insert_or_add_delivery p st).1 := by
  obtain ⟨hd, ho⟩ := h
  unfold insert_or_add_delivery
  by_cases hif : ((p.lookup "seller_id").isSome && (p.lookup "catalog_id").isSome
      && (p.lookup "quantity").isSome) = true
  · simp only [hif, if_true]
    cases hf : st.delivery.find? (valMatches (colVal p "seller_id") (colVal p "catalog_id")) with
    | some x =>
      cases hq : numCoerce (colVal p "quantity") with
      | none => simp only [hf, hq]; exact ⟨hd, ho⟩
      | some d =>
        simp only [hf, hq]
        refine ⟨?_, ho⟩
        intro s c
        have := countMatching_map_update st.delivery s c
          (valMatches (colVal p "seller_id") (colVal p "catalog_id"))
          (fun r => r.quantity + d)
        simpa [this] using hd s c
    | none =>
      cases hs : valAsStoredInt "delivery.seller_id" (colVal p "seller_id") with
      | error e => simp only [hf, hs]; exact ⟨hd, ho⟩
      | ok s0 =>
        cases hc : valAsStoredInt "delivery.catalog_id" (colVal p "catalog_id") with
        | error e => simp only [hf, hs, hc]; exact ⟨hd, ho⟩
        | ok c0 =>
          cases hq : valAsStoredInt "delivery.quantity" (colVal p "quantity") with
          | error e => simp only [hf, hs, hc, hq]; exact ⟨hd, ho⟩
          | ok q0 =>
            simp only [hf, hs, hc, hq]
            refine ⟨?_, ho⟩
            have h0 := count_zero_of_find_none st.delivery _ _ s0 c0
              (valAsStoredInt_ok_asInt _ _ _ hs) (valAsStoredInt_ok_asInt _ _ _ hc) hf
            exact countMatching_append_le st.delivery s0 c0 q0 hd h0
  · simp only [hif, if_false, Bool.false_eq_true]
    exact ⟨hd, ho⟩

/-- C2: every store state reachable through the core's operations (seed
initialization, generic insert, delivery upsert) holds at most one delivery
row per (seller_id, catalog_id) pair and at most one order_item row per
(order_id, catalog_id) pair: a second write to an existing pair merges
instead of duplicating. -/
theorem reachable_composite_keys_unique (st : Store) (h : Reachable st) :
    StoreKeysUnique st := by
  induction h with
  | empty =>
      exact ⟨fun s c => by simp [countMatching, emptyStore],
        fun o c => by simp [oiCountMatching, emptyStore]⟩
  | initStep _ ih => exact init_db_preserves_keys _ ih
  | insertStep t p _ ih => exact insert_row_preserves_keys t p _ ih
  | upsertStep p _ ih => exact upsert_preserves_keys p _ ih

/-- Witness: the freshly seeded store satisfies the composite-key
uniqueness invariant. -/
theorem reachable_composite_keys_unique_example :
    StoreKeysUnique (init_db emptyStore) :=
  reachable_composite_keys_unique (init_db emptyStore)
    (Reachable.initStep Reachable.empty)

/-- C10: the delivery upsert reads nothing from the payload beyond
seller_id, catalog_id and quantity — two payloads agreeing on those three
lookups produce identical results and store effects — and every successful
outcome carries the same message "inserted" on the insert path and the
accumulate path alike. -/
theorem upsert_depends_only_on_required_fields :
    (∀ (p1 p2 : Payload) (st : Store),
      p1.lookup "seller_id" = p2.lookup "seller_id" →
      p1.lookup "catalog_id" = p2.lookup "catalog_id" →
      p1.lookup "quantity" = p2.lookup "quantity" →
      insert_or_add_delivery p1 st = insert_or_add_delivery p2 st) ∧
    (∀ (p : Payload) (st : Store),
      (insert_or_add_delivery p st).2.1 = true →
      (insert_or_add_delivery p st).2.2 = "inserted") := by
  constructor
  · intro p1 p2 st h1 h2 h3
    simp only [insert_or_add_delivery, colVal, h1, h2, h3]
  · intro p st
    unfold insert_or_add_delivery
    split
    · dsimp only
      split
      · split
        · simp
        · simp
      · split
        · simp
        · simp
        · simp
        · simp
    · simp

/-- Witness: adding an extra field to a delivery payload changes nothing:
the upsert's result on a payload with an ignored extra field equals its
result on the bare three-field payload. -/
theorem upsert_depends_only_on_required_fields_example :
    insert_or_add_delivery
        [("extra", Val.str "ignored"), ("seller_id", Val.int 1),
          ("catalog_id", Val.int 2), ("quantity", Val.int 5)] emptyStore
      = insert_or_add_delivery (mkDeliveryPayload 1 2 5) emptyStore :=
  upsert_depends_only_on_required_fields.1
    [("extra", Val.str "ignored"), ("seller_id", Val.int 1),
      ("catalog_id", Val.int 2), ("quantity", Val.int 5)]
    (mkDeliveryPayload 1 2 5) emptyStore rfl rfl rfl
